import Mathlib

/-!
Verification of the sensor-monitoring diagnostic engine.

The repository ships the engine's API contract and README (the Python
backend itself is not present in the source tree) together with the
React frontend (DiagnosisModal / DiagnosisPage).  The backend components
(Health Evaluator, Alert Aggregator, Tool Gateway, Diagnostic
Orchestrator) are therefore modelled from the specification and the API
contract; the frontend streaming/caching logic is embedded directly from
the TypeScript source.

Numbers: measured values (temperature, acceleration) are `Rat`; the
gateway signal and timestamps are `Int`; record ids are `Nat`.
-/

/-- Tri-state health classification used throughout the engine
(`healthy | warning | critical`). -/
inductive HealthLevel where
  | healthy
  | warning
  | critical
deriving DecidableEq, Repr

/-- Severity rank: `healthy` = 0, `warning` = 1, `critical` = 2.  Used to
state monotonicity and the worst-of ordering. -/
def HealthLevel.rank : HealthLevel → Nat
  | .healthy => 0
  | .warning => 1
  | .critical => 2

/-- The worse (higher-severity) of two health levels. -/
def HealthLevel.worst (a b : HealthLevel) : HealthLevel :=
  if a.rank ≤ b.rank then b else a

instance : Fintype HealthLevel :=
  ⟨⟨{HealthLevel.healthy, HealthLevel.warning, HealthLevel.critical}, by decide⟩,
   by intro x; cases x <;> decide⟩

/-- Modelled from the spec: Connectivity classification of the gateway
signal (dBm).  Healthy iff signal ≥ −75, warning iff −85 ≤ signal < −75,
critical iff signal < −85 (API contract "Health Analysis Logic —
Connectivity Analysis"). -/
def classifySignal (s : Int) : HealthLevel :=
  if -75 ≤ s then .healthy
  else if -85 ≤ s then .warning
  else .critical

/-- Modelled from the spec: Acceleration classification of the maximal
per-axis G-force peak.  Healthy iff ≤ 12 G, warning iff 12 < g ≤ 16 G,
critical iff > 16 G. -/
def classifyAcceleration (g : Rat) : HealthLevel :=
  if g ≤ 12 then .healthy
  else if g ≤ 16 then .warning
  else .critical

/-- Modelled from the spec: Temperature classification (°C).  Healthy iff
≤ 90, warning iff 90 < t ≤ 120, critical iff > 120. -/
def classifyTemperature (t : Rat) : HealthLevel :=
  if t ≤ 90 then .healthy
  else if t ≤ 120 then .warning
  else .critical

/-- **C2** — For every gateway-signal value `s`, the connectivity
classification is `healthy` iff `s ≥ −75` dBm, `critical` iff `s < −85`
dBm and `warning` iff `−85 ≤ s < −75`: a total, gap-free three-way
classification with inclusive boundaries, monotone in the signal (a
stronger signal never classifies as more severe). -/
theorem classifySignal_spec (s t : Int) :
    ((classifySignal s = .healthy ↔ -75 ≤ s) ∧
     (classifySignal s = .warning ↔ -85 ≤ s ∧ s < -75) ∧
     (classifySignal s = .critical ↔ s < -85)) ∧
    (s ≤ t → (classifySignal t).rank ≤ (classifySignal s).rank) := by
  constructor
  · unfold classifySignal
    refine ⟨?_, ?_, ?_⟩ <;> split <;> (try split) <;> simp_all <;> omega
  · intro hst
    unfold classifySignal
    split <;> (try split) <;> (try split) <;> (try split) <;>
      simp_all [HealthLevel.rank] <;> omega

/-- Witness for C2: instantiated at `s = −90 ≤ t = −80`; the monotonicity
hypothesis is discharged concretely, and the classification of −80 dBm is
`warning`. -/
theorem classifySignal_spec_witness :
    (classifySignal (-80) = .warning ∧
     (classifySignal (-80)).rank ≤ (classifySignal (-90)).rank) :=
  ⟨(classifySignal_spec (-80) (-70)).1.2.1.mpr (by decide),
   (classifySignal_spec (-90) (-80)).2 (by decide)⟩

/-- One sensor reading, following the API contract's `SensorData` object:
id (opaque unique id), optional asset id, required sample timestamp,
optional sensor id, three optional per-axis acceleration peaks (G),
optional asset temperature and accelerometer temperature (°C), optional
gateway signal strength (dBm). -/
structure SensorSample where
  id : Nat
  assetId : Option String
  sampledAt : Int
  sensorId : Option String
  accelPeakX : Option Rat
  accelPeakY : Option Rat
  accelPeakZ : Option Rat
  temperature : Option Rat
  temperatureAccelerometer : Option Rat
  gatewaySignal : Option Int
deriving DecidableEq, Repr

/-- The dimensions the Health Evaluator inspects, in report order. -/
inductive Dimension where
  | connectivity
  | acceleration
  | temperature
deriving DecidableEq, Repr

/-- One issue entry: the violated dimension, the measured value and the
breached threshold (the warning boundary for a warning, the critical
boundary for a critical). -/
structure Issue where
  dim : Dimension
  measured : Rat
  threshold : Rat
deriving DecidableEq, Repr

/-- Absolute value of a rational, written out so that it evaluates by
kernel reduction. -/
def ratAbs (g : Rat) : Rat := if g < 0 then -g else g

/-- Maximum of two rationals, written out so that it evaluates by kernel
reduction. -/
def ratMax (a b : Rat) : Rat := if a ≤ b then b else a

/-- Modelled from the spec: the maximal per-axis acceleration magnitude
`max (|x|, |y|, |z|)` over the axes that are present; `none` when all
three are absent. -/
def maxAccelOf (s : SensorSample) : Option Rat :=
  [s.accelPeakX, s.accelPeakY, s.accelPeakZ].foldl
    (fun acc v =>
      match v with
      | none => acc
      | some g =>
        match acc with
        | none => some (ratAbs g)
        | some m => some (ratMax m (ratAbs g))) none

/-- Modelled from the spec: connectivity sub-verdict of a sample; an
absent gateway signal is excluded from evaluation (healthy). -/
def connectivityLevel (s : SensorSample) : HealthLevel :=
  match s.gatewaySignal with
  | none => .healthy
  | some v => classifySignal v

/-- Modelled from the spec: acceleration sub-verdict of a sample; absent
acceleration fields are excluded from evaluation (healthy). -/
def accelerationLevel (s : SensorSample) : HealthLevel :=
  match maxAccelOf s with
  | none => .healthy
  | some g => classifyAcceleration g

/-- Modelled from the spec: temperature sub-verdict of a sample; an
absent temperature is excluded from evaluation (healthy). -/
def temperatureLevel (s : SensorSample) : HealthLevel :=
  match s.temperature with
  | none => .healthy
  | some t => classifyTemperature t

/-- The breached threshold reported for a connectivity issue: the warning
boundary (−75 dBm) when the level is `warning`, the critical boundary
(−85 dBm) when it is `critical`. -/
def connectivityThreshold (l : HealthLevel) : Rat :=
  if l = .critical then -85 else -75

/-- The breached threshold reported for an acceleration issue. -/
def accelerationThreshold (l : HealthLevel) : Rat :=
  if l = .critical then 16 else 12

/-- The breached threshold reported for a temperature issue. -/
def temperatureThreshold (l : HealthLevel) : Rat :=
  if l = .critical then 120 else 90

/-- Modelled from the spec: the ordered issue list of a sample — one
entry per violated dimension carrying the measured value and the breached
threshold, in the order connectivity → acceleration → temperature. -/
def issuesOf (s : SensorSample) : List Issue :=
  (match s.gatewaySignal with
   | none => []
   | some v =>
     if connectivityLevel s ≠ .healthy then
       [⟨.connectivity, (v : Rat), connectivityThreshold (connectivityLevel s)⟩]
     else []) ++
  (match maxAccelOf s with
   | none => []
   | some g =>
     if accelerationLevel s ≠ .healthy then
       [⟨.acceleration, g, accelerationThreshold (accelerationLevel s)⟩]
     else []) ++
  (match s.temperature with
   | none => []
   | some t =>
     if temperatureLevel s ≠ .healthy then
       [⟨.temperature, t, temperatureThreshold (temperatureLevel s)⟩]
     else [])

/-- Fixed, value-independent recommendation text per dimension. -/
def recommendationFor : Dimension → String
  | .connectivity => "Check antenna positioning and gateway proximity"
  | .acceleration => "Inspect mounting and mechanical condition"
  | .temperature => "Check cooling systems and ventilation"

/-- Derived health verdict for one sensor, following the API contract's
`health_status` object: three boolean sub-verdicts, the overall tri-state,
the observed values and the ordered issue list with one recommendation per
violated dimension. -/
structure HealthStatus where
  sensorId : String
  connectivityOk : Bool
  accelerationOk : Bool
  temperatureOk : Bool
  overallHealth : HealthLevel
  connectivitySignal : Option Int
  maxAcceleration : Option Rat
  maxTemperature : Option Rat
  issues : List Issue
  recommendations : List String
deriving DecidableEq, Repr

/-- Modelled from the spec: the Health Evaluator — a pure, total function
from a sensor's latest sample to its `HealthStatus`.  The overall health
is the worst of the three sub-verdicts. -/
def evaluateHealth (sid : String) (s : SensorSample) : HealthStatus :=
  let c := connectivityLevel s
  let a := accelerationLevel s
  let t := temperatureLevel s
  { sensorId := sid
    connectivityOk := c = .healthy
    accelerationOk := a = .healthy
    temperatureOk := t = .healthy
    overallHealth := (c.worst a).worst t
    connectivitySignal := s.gatewaySignal
    maxAcceleration := maxAccelOf s
    maxTemperature := s.temperature
    issues := issuesOf s
    recommendations := (issuesOf s).map (fun i => recommendationFor i.dim) }

/-- worst-of-three characterization, checked over the finite type. -/
lemma worst3_spec (c a t : HealthLevel) :
    (((c.worst a).worst t = .critical ↔
        c = .critical ∨ a = .critical ∨ t = .critical) ∧
     ((c.worst a).worst t = .warning ↔
        ¬(c = .critical ∨ a = .critical ∨ t = .critical) ∧
          (c = .warning ∨ a = .warning ∨ t = .warning)) ∧
     ((c.worst a).worst t = .healthy ↔
        c = .healthy ∧ a = .healthy ∧ t = .healthy)) := by
  revert c a t; decide

/-- **C3** — For every evaluated sensor, `overall_health` is the worst of
the three sub-verdicts: `critical` iff at least one dimension is
critical-causing, `warning` iff no dimension is critical but at least one
is warning-causing, and `healthy` otherwise (all three healthy). -/
theorem evaluateHealth_overall_worst (sid : String) (s : SensorSample) :
    ((evaluateHealth sid s).overallHealth = .critical ↔
       connectivityLevel s = .critical ∨ accelerationLevel s = .critical ∨
         temperatureLevel s = .critical) ∧
    ((evaluateHealth sid s).overallHealth = .warning ↔
       ¬(connectivityLevel s = .critical ∨ accelerationLevel s = .critical ∨
           temperatureLevel s = .critical) ∧
         (connectivityLevel s = .warning ∨ accelerationLevel s = .warning ∨
           temperatureLevel s = .warning)) ∧
    ((evaluateHealth sid s).overallHealth = .healthy ↔
       connectivityLevel s = .healthy ∧ accelerationLevel s = .healthy ∧
         temperatureLevel s = .healthy) :=
  worst3_spec (connectivityLevel s) (accelerationLevel s) (temperatureLevel s)

/-- The C8 scenario sample: latest reading with temperature 95.5 °C,
gateway signal −80 dBm and maximal acceleration 5 G. -/
def scenarioWarningSample : SensorSample :=
  { id := 1
    assetId := some "ASSET_001"
    sampledAt := 1000
    sensorId := some "SENSOR_001"
    accelPeakX := some 5
    accelPeakY := some (-3)
    accelPeakZ := some 4
    temperature := some (mkRat 191 2)
    temperatureAccelerometer := some 40
    gatewaySignal := some (-80) }

/-- **C8** — For the sensor whose latest sample has temperature 95.5 °C,
gateway signal −80 dBm and maximal acceleration 5 G, the Health Evaluator
returns `overall_health = warning` and the issue list holds exactly one
connectivity issue followed by one temperature issue (no acceleration
issue), each carrying the measured value and the breached threshold, in
the order connectivity before acceleration before temperature. -/
theorem evaluateHealth_scenario_warning :
    (evaluateHealth "SENSOR_001" scenarioWarningSample).overallHealth =
        .warning ∧
    (evaluateHealth "SENSOR_001" scenarioWarningSample).issues =
      [⟨.connectivity, -80, -75⟩, ⟨.temperature, mkRat 191 2, 90⟩] ∧
    ((evaluateHealth "SENSOR_001" scenarioWarningSample).issues.countP
        (fun i => i.dim = .connectivity) = 1 ∧
     (evaluateHealth "SENSOR_001" scenarioWarningSample).issues.countP
        (fun i => i.dim = .temperature) = 1 ∧
     (evaluateHealth "SENSOR_001" scenarioWarningSample).issues.countP
        (fun i => i.dim = .acceleration) = 0) := by
  refine ⟨?_, ?_, ?_, ?_, ?_⟩ <;> decide

/-- All stored samples of one sensor id (the Sample Store is a list of
records; a sample belongs to a sensor when its optional `sensor_id`
equals it). -/
def samplesForSensor (store : List SensorSample) (sid : String) :
    List SensorSample :=
  store.filter (fun s => s.sensorId = some sid)

/-- The most recent sample of a sensor: maximal `sampled_at` among its
samples, `none` when it has no sample. -/
def latestSample (store : List SensorSample) (sid : String) :
    Option SensorSample :=
  (samplesForSensor store sid).foldl
    (fun acc s =>
      match acc with
      | none => some s
      | some b => if b.sampledAt ≤ s.sampledAt then some s else some b) none

/-- Modelled from the spec: the health bucket the Alert Aggregator puts a
sensor in — a sensor with zero samples counts as offline/critical rather
than erroring; otherwise the Health Evaluator's overall verdict of its
latest sample. -/
def sensorLevel (store : List SensorSample) (sid : String) : HealthLevel :=
  match latestSample store sid with
  | none => .critical
  | some s => (evaluateHealth sid s).overallHealth

/-- Fleet-wide aggregate, following the API contract's
`GET /health/summary` response object. -/
structure FleetSummary where
  totalSensors : Nat
  healthySensors : Nat
  warningSensors : Nat
  criticalSensors : Nat
  overallStatus : HealthLevel
  healthPercentage : Rat
deriving DecidableEq, Repr

/-- Modelled from the spec: the overall fleet status — the worst bucket
holding at least one sensor. -/
def fleetStatus (w c : Nat) : HealthLevel :=
  if 0 < c then .critical else if 0 < w then .warning else .healthy

/-- Modelled from the spec: the Alert Aggregator — one Health Evaluator
verdict per known sensor id, folded into a `FleetSummary`.  Never errors:
a zero-sample sensor contributes a critical bucket entry. -/
def aggregateFleet (store : List SensorSample) (ids : List String) :
    FleetSummary :=
  let levels := ids.map (sensorLevel store)
  let h := levels.countP (· = .healthy)
  let w := levels.countP (· = .warning)
  let c := levels.countP (· = .critical)
  { totalSensors := levels.length
    healthySensors := h
    warningSensors := w
    criticalSensors := c
    overallStatus := fleetStatus w c
    healthPercentage := mkRat (100 * h) levels.length }

/-- Partition of a level list into the three buckets. -/
lemma length_eq_three_buckets (ls : List HealthLevel) :
    ls.length = ls.countP (· = .healthy) + ls.countP (· = .warning) +
      ls.countP (· = .critical) := by
  induction ls with
  | nil => rfl
  | cons a ls ih => cases a <;> simp [List.countP_cons, ih] <;> omega

/-- Characterization of `fleetStatus`. -/
lemma fleetStatus_spec (w c : Nat) :
    (fleetStatus w c = .critical ↔ 0 < c) ∧
    (fleetStatus w c = .warning ↔ c = 0 ∧ 0 < w) ∧
    (fleetStatus w c = .healthy ↔ c = 0 ∧ w = 0) := by
  unfold fleetStatus
  split <;> (try split) <;> refine ⟨?_, ?_, ?_⟩ <;> simp <;> omega

/-- **C6** — For every `FleetSummary` the aggregator produces:
`health_percentage = 100 × healthy_sensors / total_sensors`,
`total_sensors = healthy + warning + critical` exactly, and
`overall_status` is `critical` iff `critical_sensors > 0`, else `warning`
iff `warning_sensors > 0`, else `healthy`. -/
theorem aggregateFleet_spec (store : List SensorSample) (ids : List String) :
    (aggregateFleet store ids).totalSensors =
        (aggregateFleet store ids).healthySensors +
        (aggregateFleet store ids).warningSensors +
        (aggregateFleet store ids).criticalSensors ∧
    (aggregateFleet store ids).healthPercentage =
        100 * ((aggregateFleet store ids).healthySensors : Rat) /
          ((aggregateFleet store ids).totalSensors : Rat) ∧
    ((aggregateFleet store ids).overallStatus = .critical ↔
        0 < (aggregateFleet store ids).criticalSensors) ∧
    ((aggregateFleet store ids).overallStatus = .warning ↔
        (aggregateFleet store ids).criticalSensors = 0 ∧
        0 < (aggregateFleet store ids).warningSensors) ∧
    ((aggregateFleet store ids).overallStatus = .healthy ↔
        (aggregateFleet store ids).criticalSensors = 0 ∧
        (aggregateFleet store ids).warningSensors = 0) := by
  refine ⟨length_eq_three_buckets _, ?_, ?_, ?_, ?_⟩
  · have hh : (aggregateFleet store ids).healthySensors
        = (ids.map (sensorLevel store)).countP (· = .healthy) := rfl
    have ht : (aggregateFleet store ids).totalSensors
        = (ids.map (sensorLevel store)).length := rfl
    rw [hh, ht]
    show mkRat _ _ = _
    rw [Rat.mkRat_eq_div]
    push_cast
    ring
  · exact (fleetStatus_spec _ _).1
  · exact (fleetStatus_spec _ _).2.1
  · exact (fleetStatus_spec _ _).2.2

/-- Failure taxonomy surfaced to callers (spec section 7): a missing
sensor/record is `notFound`; a mutation outside the single permitted
column is `securityViolation`. -/
inductive ApiError where
  | notFound
  | securityViolation
deriving DecidableEq, Repr

/-- Insertion of a sample into a most-recent-first list. -/
def insertByTime (s : SensorSample) : List SensorSample → List SensorSample
  | [] => [s]
  | t :: ts => if t.sampledAt ≤ s.sampledAt then s :: t :: ts
               else t :: insertByTime s ts

/-- Samples ordered by `sampled_at`, most recent first. -/
def sortByTimeDesc (l : List SensorSample) : List SensorSample :=
  l.foldr insertByTime []

/-- Modelled from the spec: the gateway search — optional sensor/asset
filters, limit clamped to [1,100] (default 10 at the HTTP layer),
most-recent-first.  Read-only. -/
def searchSamples (store : List SensorSample) (sensorId assetId : Option String)
    (lim : Nat) : List SensorSample :=
  (sortByTimeDesc (store.filter (fun s =>
      (sensorId.all (fun v => s.sensorId = some v)) &&
      (assetId.all (fun v => s.assetId = some v))))).take (min (max lim 1) 100)

/-- Aggregate record returned by the gateway summary, following the API
contract (`total_records`, `unique_sensors`, earliest/latest timestamps,
average temperature and gateway signal). -/
structure SensorSummary where
  totalRecords : Nat
  uniqueSensors : Nat
  earliestSample : Option Int
  latestSample : Option Int
  avgTemperature : Rat
  avgGatewaySignal : Rat
deriving DecidableEq, Repr

/-- Modelled from the spec: the gateway summary — aggregate statistics
over the samples matching the optional sensor filter.  Read-only. -/
def summarize (store : List SensorSample) (sensorId : Option String) :
    SensorSummary :=
  let rows := store.filter (fun s => sensorId.all (fun v => s.sensorId = some v))
  let temps := rows.filterMap (fun s => s.temperature)
  let sigs := rows.filterMap (fun s => s.gatewaySignal)
  { totalRecords := rows.length
    uniqueSensors := (rows.filterMap (fun s => s.sensorId)).dedup.length
    earliestSample := (rows.map (fun s => s.sampledAt)).min?
    latestSample := (rows.map (fun s => s.sampledAt)).max?
    avgTemperature := (temps.foldl (· + ·) 0) * mkRat 1 temps.length
    avgGatewaySignal := (mkRat (sigs.foldl (· + ·) 0) sigs.length) }

/-- Modelled from the spec: the gateway limited-write path
(`POST /mcp/update-sampled-at`): rewrites only the `sampled_at` field of
the one record with the given id; fails with `notFound`, leaving the
store untouched, when no record has the id.  Returns the outcome together
with the store after the call. -/
def updateSampledAt (store : List SensorSample) (rid : Nat) (ts : Int) :
    Except ApiError Unit × List SensorSample :=
  if store.any (fun r => r.id = rid) then
    (.ok (), store.map (fun r =>
      if r.id = rid then { r with sampledAt := ts } else r))
  else (.error .notFound, store)

/-- The complete capability surface the Tool Gateway exposes (API
contract `GET /mcp/tools`): read-only search, read-only summary, and a
mutation request carrying the name of the column to write.  No delete
request exists on the surface. -/
inductive GatewayRequest where
  | search (sensorId assetId : Option String) (lim : Nat)
  | summary (sensorId : Option String)
  | mutate (field : String) (rid : Nat) (value : Int)
deriving DecidableEq, Repr

/-- Result of one gateway call. -/
inductive GatewayOutcome where
  | rows (found : List SensorSample)
  | aggregate (s : SensorSummary)
  | updated (rid : Nat) (ts : Int)
  | failed (e : ApiError)
deriving DecidableEq, Repr

/-- Modelled from the spec: the Tool Gateway boundary.  A mutation naming
any column other than `sampled_at` is rejected as a security violation
before reaching storage; the only reachable write is `updateSampledAt`.
Returns the outcome together with the store after the call. -/
def applyGateway (req : GatewayRequest) (store : List SensorSample) :
    GatewayOutcome × List SensorSample :=
  match req with
  | .search sensorId assetId lim =>
      (.rows (searchSamples store sensorId assetId lim), store)
  | .summary sensorId => (.aggregate (summarize store sensorId), store)
  | .mutate field rid value =>
      if field = "sampled_at" then
        match updateSampledAt store rid value with
        | (.ok _, store') => (.updated rid value, store')
        | (.error e, store') => (.failed e, store')
      else (.failed .securityViolation, store)

/-- Record-wise frame property of the limited write targeting `rid`:
every field other than `sampled_at` is unchanged, `sampled_at` is
unchanged on untargeted records and set to `ts` on the targeted one. -/
def UpdateFrame (rid : Nat) (ts : Int) (r r' : SensorSample) : Prop :=
  r'.id = r.id ∧ r'.assetId = r.assetId ∧ r'.sensorId = r.sensorId ∧
  r'.accelPeakX = r.accelPeakX ∧ r'.accelPeakY = r.accelPeakY ∧
  r'.accelPeakZ = r.accelPeakZ ∧ r'.temperature = r.temperature ∧
  r'.temperatureAccelerometer = r.temperatureAccelerometer ∧
  r'.gatewaySignal = r.gatewaySignal ∧
  (r.id ≠ rid → r'.sampledAt = r.sampledAt) ∧
  (r.id = rid → r'.sampledAt = ts)

/-- Record-wise invariant of the whole gateway surface: id and every
field except possibly `sampled_at` are preserved. -/
def NonTimestampEq (r r' : SensorSample) : Prop :=
  r'.id = r.id ∧ r'.assetId = r.assetId ∧ r'.sensorId = r.sensorId ∧
  r'.accelPeakX = r.accelPeakX ∧ r'.accelPeakY = r.accelPeakY ∧
  r'.accelPeakZ = r.accelPeakZ ∧ r'.temperature = r.temperature ∧
  r'.temperatureAccelerometer = r.temperatureAccelerometer ∧
  r'.gatewaySignal = r.gatewaySignal

/-- The limited write relates old and new store record-by-record. -/
lemma updateSampledAt_forall₂ (store : List SensorSample) (rid : Nat)
    (ts : Int) :
    List.Forall₂ (UpdateFrame rid ts) store (updateSampledAt store rid ts).2 := by
  unfold updateSampledAt
  split
  · simp only [List.forall₂_map_right_iff]
    rw [List.forall₂_same]
    intro r _
    by_cases hr : r.id = rid <;>
      simp [UpdateFrame, hr]
  · rename_i h
    rw [List.forall₂_same]
    intro r hr
    have hne : ¬ r.id = rid := by
      intro he
      apply h
      simp only [List.any_eq_true]
      exact ⟨r, hr, by simp [he]⟩
    simp [UpdateFrame, hne]

/-- `UpdateFrame` is stronger than `NonTimestampEq`. -/
lemma updateFrame_nonTimestampEq {rid : Nat} {ts : Int} {r r' : SensorSample}
    (h : UpdateFrame rid ts r r') : NonTimestampEq r r' := by
  obtain ⟨h1, h2, h3, h4, h5, h6, h7, h8, h9, -⟩ := h
  exact ⟨h1, h2, h3, h4, h5, h6, h7, h8, h9⟩

/-- **C4** — `update_sampled_at` rewrites only the `sampled_at` field of
the one targeted existing record and leaves every other field and every
other record unchanged (stated record-by-record via `List.Forall₂`, which
also forces the record count to be preserved); on a nonexistent id it
fails with `notFound` and performs no mutation; a mutation naming any
other field is rejected at the gateway boundary with a security violation
and never reaches storage; and no request of the gateway surface can
delete a record or change any field other than `sampled_at`. -/
theorem updateSampledAt_frame_spec (store : List SensorSample) (rid : Nat)
    (ts : Int) :
    ((store.any (fun r => r.id = rid)) = false →
        updateSampledAt store rid ts = (.error .notFound, store)) ∧
    List.Forall₂ (UpdateFrame rid ts) store (updateSampledAt store rid ts).2 ∧
    (∀ f v, f ≠ "sampled_at" →
        applyGateway (.mutate f rid v) store =
          (.failed .securityViolation, store)) ∧
    (∀ req : GatewayRequest,
        List.Forall₂ NonTimestampEq store (applyGateway req store).2) := by
  refine ⟨?_, updateSampledAt_forall₂ store rid ts, ?_, ?_⟩
  · intro h
    unfold updateSampledAt
    simp [h]
  · intro f v hf
    unfold applyGateway
    simp [hf]
  · intro req
    match req with
    | .search a b c =>
        show List.Forall₂ NonTimestampEq store store
        rw [List.forall₂_same]
        intro r _
        exact ⟨rfl, rfl, rfl, rfl, rfl, rfl, rfl, rfl, rfl⟩
    | .summary a =>
        show List.Forall₂ NonTimestampEq store store
        rw [List.forall₂_same]
        intro r _
        exact ⟨rfl, rfl, rfl, rfl, rfl, rfl, rfl, rfl, rfl⟩
    | .mutate f r v =>
        by_cases hf : f = "sampled_at"
        · subst hf
          have h2 : (applyGateway (.mutate "sampled_at" r v) store).2 =
              (updateSampledAt store r v).2 := by
            rcases hu : updateSampledAt store r v with ⟨res, st2⟩
            cases res <;> simp [applyGateway, hu]
          rw [h2]
          exact (updateSampledAt_forall₂ store r v).imp
            (fun _ _ h => updateFrame_nonTimestampEq h)
        · have h2 : (applyGateway (.mutate f r v) store).2 = store := by
            simp [applyGateway, hf]
          rw [h2]
          rw [List.forall₂_same]
          intro x _
          exact ⟨rfl, rfl, rfl, rfl, rfl, rfl, rfl, rfl, rfl⟩

/-- Orchestrator budgets: the configured maximum iteration count and the
accumulated-row cap. -/
structure OrchestratorConfig where
  maxIterations : Nat
  rowCap : Nat
deriving DecidableEq, Repr

/-- Modelled from the spec: the model's parsed answer in the Propose
state — a final report, a request for one additional time range with a
stated reason, or an unparseable response. -/
inductive LLMResponse where
  | finalReport (text : String)
  | requestData (startDate endDate : Int) (reason : String)
  | malformed (raw : String)
deriving DecidableEq, Repr

/-- Why a diagnostic session ended. -/
inductive TerminationReason where
  | modelConcluded
  | budgetExhausted
deriving DecidableEq, Repr

/-- Orchestrator-internal, ephemeral session state: target sensor, the
accumulated window (deduplicated by sample id), iterations performed. -/
structure DiagnosticSession where
  sensorId : String
  samples : List SensorSample
  iterations : Nat
deriving DecidableEq, Repr

/-- The orchestrator's caller-visible result, following the API
contract's diagnostics response. -/
structure DiagnosticReport where
  sensorId : String
  dataPointsAnalyzed : Nat
  iterationsPerformed : Nat
  llmAnalysis : String
  reason : TerminationReason
deriving DecidableEq, Repr

/-- Append a sample unless a sample with its id is already present. -/
def insertUnique (acc : List SensorSample) (s : SensorSample) :
    List SensorSample :=
  if acc.any (fun o => o.id = s.id) then acc else acc ++ [s]

/-- Modelled from the spec: merge newly fetched samples into the
session's accumulated window, deduplicating by sample id. -/
def mergeSamples (old new : List SensorSample) : List SensorSample :=
  new.foldl insertUnique old

/-- The most recent sample within a list. -/
def latestIn (l : List SensorSample) : Option SensorSample :=
  l.foldl
    (fun acc s =>
      match acc with
      | none => some s
      | some b => if b.sampledAt ≤ s.sampledAt then some s else some b) none

/-- Readable name of a health level. -/
def levelText : HealthLevel → String
  | .healthy => "healthy"
  | .warning => "warning"
  | .critical => "critical"

/-- Modelled from the spec: the best-effort report synthesized from the
deterministic `HealthStatus` of the data gathered so far, used when the
loop ends without a model-emitted conclusion. -/
def bestEffortText (sess : DiagnosticSession) : String :=
  match latestIn sess.samples with
  | none => "No data available for sensor " ++ sess.sensorId
  | some s =>
      "Deterministic health status for " ++ sess.sensorId ++ ": " ++
        levelText (evaluateHealth sess.sensorId s).overallHealth

/-- Package a session into the caller-visible report. -/
def mkReport (sess : DiagnosticSession) (text : String)
    (reason : TerminationReason) : DiagnosticReport :=
  { sensorId := sess.sensorId
    dataPointsAnalyzed := sess.samples.length
    iterationsPerformed := sess.iterations
    llmAnalysis := text
    reason := reason }

/-- Modelled from the spec: one Propose→Fetch→Decide round of the
orchestrator state machine.  A final report ends the session as
model-concluded; a malformed response is treated as a request to finalize
immediately with the best-effort report over the data gathered so far; a
data request performs one bounded fetch (merged, deduplicated, truncated
to the row cap) and increments the iteration counter, after which the
session ends as budget-exhausted when the iteration counter reaches the
configured maximum or the accumulated row count reaches its cap. -/
def orchestratorStep (cfg : OrchestratorConfig)
    (fetch : Int → Int → List SensorSample) (resp : LLMResponse)
    (sess : DiagnosticSession) : DiagnosticSession ⊕ DiagnosticReport :=
  match resp with
  | .finalReport t => .inr (mkReport sess t .modelConcluded)
  | .malformed _ => .inr (mkReport sess (bestEffortText sess) .modelConcluded)
  | .requestData sd ed _ =>
      let sess' : DiagnosticSession :=
        { sess with
            samples := (mergeSamples sess.samples (fetch sd ed)).take cfg.rowCap
            iterations := sess.iterations + 1 }
      if cfg.maxIterations ≤ sess'.iterations ∨
          cfg.rowCap ≤ sess'.samples.length then
        .inr (mkReport sess' (bestEffortText sess') .budgetExhausted)
      else .inl sess'

/-- Modelled from the spec: the bounded iterative loop.  The fuel is the
remaining iteration budget; exhausting it yields the budget-exhausted
best-effort report. -/
def runLoop (cfg : OrchestratorConfig)
    (model : DiagnosticSession → LLMResponse)
    (fetch : Int → Int → List SensorSample) :
    Nat → DiagnosticSession → DiagnosticReport
  | 0, sess => mkReport sess (bestEffortText sess) .budgetExhausted
  | fuel + 1, sess =>
      match orchestratorStep cfg fetch (model sess) sess with
      | .inr report => report
      | .inl sess' => runLoop cfg model fetch fuel sess'

/-- Modelled from the spec: the Diagnostic Orchestrator entry point.
Init loads the sensor's stored samples; zero samples terminate
immediately with `notFound` (a caller-visible failure consuming no loop
iteration); otherwise the loop runs with the full iteration budget. -/
def runDiagnostics (cfg : OrchestratorConfig)
    (model : DiagnosticSession → LLMResponse)
    (fetch : Int → Int → List SensorSample) (store : List SensorSample)
    (sid : String) : Except ApiError DiagnosticReport :=
  let initial := samplesForSensor store sid
  if initial.isEmpty then .error .notFound
  else
    .ok (runLoop cfg model fetch cfg.maxIterations
      { sensorId := sid
        samples := (mergeSamples [] initial).take cfg.rowCap
        iterations := 0 })

/-- The sessions a diagnostic run can pass through, starting from its
initial session: the reflexive-transitive closure of non-terminal
orchestrator steps under the given model and fetch functions. -/
inductive ReachableSession (cfg : OrchestratorConfig)
    (model : DiagnosticSession → LLMResponse)
    (fetch : Int → Int → List SensorSample) (sess0 : DiagnosticSession) :
    DiagnosticSession → Prop where
  | init : ReachableSession cfg model fetch sess0 sess0
  | step {sess sess' : DiagnosticSession} :
      ReachableSession cfg model fetch sess0 sess →
      orchestratorStep cfg fetch (model sess) sess = .inl sess' →
      ReachableSession cfg model fetch sess0 sess'

/-- A non-terminal step strictly respects both budgets and increments the
iteration counter by one. -/
lemma orchestratorStep_inl_bounds {cfg : OrchestratorConfig}
    {fetch : Int → Int → List SensorSample} {resp : LLMResponse}
    {sess sess' : DiagnosticSession}
    (h : orchestratorStep cfg fetch resp sess = .inl sess') :
    sess'.iterations < cfg.maxIterations ∧
    sess'.samples.length < cfg.rowCap ∧
    sess'.iterations = sess.iterations + 1 := by
  cases resp with
  | finalReport t => simp [orchestratorStep] at h
  | malformed r => simp [orchestratorStep] at h
  | requestData sd ed r =>
      simp only [orchestratorStep] at h
      split at h
      · exact absurd h (by simp)
      · rename_i hcond
        rw [not_or] at hcond
        have he := Sum.inl.inj h
        subst he
        refine ⟨?_, ?_, rfl⟩ <;> simp_all <;> omega

/-- A terminal step starting from a session within budget produces a
report within budget. -/
lemma orchestratorStep_inr_bounds {cfg : OrchestratorConfig}
    {fetch : Int → Int → List SensorSample} {resp : LLMResponse}
    {sess : DiagnosticSession} {report : DiagnosticReport}
    (hit : sess.iterations + 1 ≤ cfg.maxIterations)
    (hlen : sess.samples.length ≤ cfg.rowCap)
    (h : orchestratorStep cfg fetch resp sess = .inr report) :
    report.iterationsPerformed ≤ cfg.maxIterations ∧
    report.dataPointsAnalyzed ≤ cfg.rowCap := by
  cases resp with
  | finalReport t =>
      simp only [orchestratorStep] at h
      have he := Sum.inr.inj h
      subst he
      exact ⟨by simp only [mkReport]; omega, by simpa [mkReport] using hlen⟩
  | malformed r =>
      simp only [orchestratorStep] at h
      have he := Sum.inr.inj h
      subst he
      exact ⟨by simp only [mkReport]; omega, by simpa [mkReport] using hlen⟩
  | requestData sd ed r =>
      simp only [orchestratorStep] at h
      split at h
      · have he := Sum.inr.inj h
        subst he
        constructor
        · simp only [mkReport]
          omega
        · simp [mkReport, List.length_take, Nat.min_le_left]
      · exact absurd h (by simp)

/-- Every report the loop produces from a session within budget stays
within both budgets. -/
lemma runLoop_bounds (cfg : OrchestratorConfig)
    (model : DiagnosticSession → LLMResponse)
    (fetch : Int → Int → List SensorSample) :
    ∀ (fuel : Nat) (sess : DiagnosticSession),
      sess.iterations + fuel ≤ cfg.maxIterations →
      sess.samples.length ≤ cfg.rowCap →
      (runLoop cfg model fetch fuel sess).iterationsPerformed ≤
          cfg.maxIterations ∧
      (runLoop cfg model fetch fuel sess).dataPointsAnalyzed ≤ cfg.rowCap := by
  intro fuel
  induction fuel with
  | zero =>
      intro sess hit hlen
      exact ⟨by simpa [runLoop, mkReport] using hit,
        by simpa [runLoop, mkReport] using hlen⟩
  | succ fuel ih =>
      intro sess hit hlen
      rcases hstep : orchestratorStep cfg fetch (model sess) sess with
        sess' | report
      · have hb := orchestratorStep_inl_bounds hstep
        have := ih sess' (by omega) (Nat.le_of_lt hb.2.1)
        simpa [runLoop, hstep] using this
      · have := orchestratorStep_inr_bounds (by omega) hlen hstep
        simpa [runLoop, hstep] using this

/-- Every reachable session of a run that starts within budget stays
within both budgets. -/
lemma reachable_bounds {cfg : OrchestratorConfig}
    {model : DiagnosticSession → LLMResponse}
    {fetch : Int → Int → List SensorSample} {sess0 sess : DiagnosticSession}
    (h0 : sess0.iterations ≤ cfg.maxIterations)
    (hl : sess0.samples.length ≤ cfg.rowCap)
    (h : ReachableSession cfg model fetch sess0 sess) :
    sess.iterations ≤ cfg.maxIterations ∧
    sess.samples.length ≤ cfg.rowCap := by
  induction h with
  | init => exact ⟨h0, hl⟩
  | step _ hstep _ =>
      have hb := orchestratorStep_inl_bounds hstep
      exact ⟨Nat.le_of_lt hb.1, Nat.le_of_lt hb.2.1⟩

/-- The C1 scenario configuration: iteration cap 3, row cap 100. -/
def scenarioConfig : OrchestratorConfig := ⟨3, 100⟩

/-- The C1 adversarial model: keeps requesting additional windows for its
first 10 answers. -/
def adversarialModel (sess : DiagnosticSession) : LLMResponse :=
  if sess.iterations < 10 then .requestData 0 0 "need more history"
  else .finalReport "done"

/-- Two further stored samples of the scenario sensor. -/
def extraSampleA : SensorSample :=
  { id := 2, assetId := none, sampledAt := 900, sensorId := some "SENSOR_001"
    accelPeakX := some 1, accelPeakY := none, accelPeakZ := none
    temperature := some 50, temperatureAccelerometer := none
    gatewaySignal := some (-60) }

/-- Two further stored samples of the scenario sensor. -/
def extraSampleB : SensorSample :=
  { id := 3, assetId := none, sampledAt := 800, sensorId := some "SENSOR_001"
    accelPeakX := some 2, accelPeakY := none, accelPeakZ := none
    temperature := some 55, temperatureAccelerometer := none
    gatewaySignal := some (-61) }

/-- The C1 scenario fetch: every requested range returns the same two
samples. -/
def scenarioFetch (_sd _ed : Int) : List SensorSample :=
  [extraSampleA, extraSampleB]

/-- The C1 scenario store: one stored sample for the scenario sensor. -/
def scenarioStore : List SensorSample := [scenarioWarningSample]

/-- **C1** — For every diagnostic session and every model strategy
(including adversarial ones): a successful run's report never exceeds the
configured maximum iterations nor the configured row cap; every session
state the loop can reach respects both budgets; and in the concrete
scenario with a cap of 3 iterations and a model that requests 10
additional windows, exactly 3 fetch iterations occur and a
budget-exhausted report is returned. -/
theorem orchestrator_budget_spec :
    (∀ (cfg : OrchestratorConfig) (model : DiagnosticSession → LLMResponse)
       (fetch : Int → Int → List SensorSample) (store : List SensorSample)
       (sid : String) (report : DiagnosticReport),
       runDiagnostics cfg model fetch store sid = .ok report →
       report.iterationsPerformed ≤ cfg.maxIterations ∧
       report.dataPointsAnalyzed ≤ cfg.rowCap) ∧
    (∀ (cfg : OrchestratorConfig) (model : DiagnosticSession → LLMResponse)
       (fetch : Int → Int → List SensorSample) (sess0 sess : DiagnosticSession),
       sess0.iterations ≤ cfg.maxIterations →
       sess0.samples.length ≤ cfg.rowCap →
       ReachableSession cfg model fetch sess0 sess →
       sess.iterations ≤ cfg.maxIterations ∧
       sess.samples.length ≤ cfg.rowCap) ∧
    (runDiagnostics scenarioConfig adversarialModel scenarioFetch
        scenarioStore "SENSOR_001").toOption.map
        (fun r => (r.iterationsPerformed, r.reason)) =
      some (3, .budgetExhausted) := by
  refine ⟨?_, ?_, ?_⟩
  · intro cfg model fetch store sid report h
    simp only [runDiagnostics] at h
    split at h
    · exact absurd h (by simp)
    · have he := Except.ok.inj h
      subst he
      exact runLoop_bounds cfg model fetch cfg.maxIterations _
        (by simp) (by simp [List.length_take, Nat.min_le_left])
  · intro cfg model fetch sess0 sess h0 hl h
    exact reachable_bounds h0 hl h
  · rfl

/-- Modelled from the spec: the single-sensor health endpoint
(`GET /health/analysis/{sensor_id}`): 404/notFound when the sensor has no
stored sample, otherwise the Health Evaluator's verdict of its latest
sample. -/
def healthAnalysis (store : List SensorSample) (sid : String) :
    Except ApiError HealthStatus :=
  match latestSample store sid with
  | none => .error .notFound
  | some s => .ok (evaluateHealth sid s)

/-- **C7** — For every sensor id with zero stored samples: the
single-sensor health endpoint and the diagnostic-analysis endpoint fail
with `notFound` (the orchestrator terminates at Init, before any loop
iteration, for every model and fetch strategy), while the fleet-wide
aggregation does not error — it counts the sensor as offline/critical and
still returns a complete aggregate over all requested ids. -/
theorem zero_samples_not_found_spec (store : List SensorSample) (sid : String)
    (ids : List String) (h : samplesForSensor store sid = []) :
    healthAnalysis store sid = .error .notFound ∧
    (∀ (cfg : OrchestratorConfig) (model : DiagnosticSession → LLMResponse)
       (fetch : Int → Int → List SensorSample),
       runDiagnostics cfg model fetch store sid = .error .notFound) ∧
    sensorLevel store sid = .critical ∧
    (aggregateFleet store ids).totalSensors = ids.length ∧
    (sid ∈ ids → 0 < (aggregateFleet store ids).criticalSensors) := by
  have hlatest : latestSample store sid = none := by
    unfold latestSample
    rw [h]
    rfl
  refine ⟨?_, ?_, ?_, ?_, ?_⟩
  · simp [healthAnalysis, hlatest]
  · intro cfg model fetch
    simp [runDiagnostics, h]
  · simp [sensorLevel, hlatest]
  · simp [aggregateFleet]
  · intro hmem
    show 0 < (ids.map (sensorLevel store)).countP (· = HealthLevel.critical)
    rw [List.countP_pos]
    refine ⟨sensorLevel store sid, List.mem_map_of_mem _ hmem, ?_⟩
    simp [sensorLevel, hlatest]

/-- Witness for C7: the empty store and the sensor id `GHOST` — both
endpoints answer `notFound`, and a fleet aggregation over the single id
`GHOST` still returns a complete aggregate counting it as critical. -/
theorem zero_samples_not_found_spec_witness :
    healthAnalysis [] "GHOST" = .error .notFound ∧
    runDiagnostics ⟨3, 100⟩ (fun _ => .finalReport "x") (fun _ _ => [])
        [] "GHOST" = .error .notFound ∧
    sensorLevel [] "GHOST" = .critical ∧
    (aggregateFleet [] ["GHOST"]).totalSensors = 1 ∧
    0 < (aggregateFleet [] ["GHOST"]).criticalSensors := by
  have hall := zero_samples_not_found_spec [] "GHOST" ["GHOST"] rfl
  exact ⟨hall.1, hall.2.1 ⟨3, 100⟩ (fun _ => .finalReport "x") (fun _ _ => []),
    hall.2.2.1, hall.2.2.2.1, hall.2.2.2.2 (by simp)⟩

/-- Per-sensor diagnosis display state, embedded from the value type of
`diagnosisStates` in DiagnosisModal.tsx (and the single state of
DiagnosisPage): displayed text, streaming/completed/error flags and the
optional error message.  Texts are character lists. -/
structure DiagnosisEntry where
  displayedText : List Char
  isStreaming : Bool
  isCompleted : Bool
  isError : Bool
  errorMessage : Option (List Char)
deriving DecidableEq, Repr

/-- The freshly initialized entry (`displayedText: '', isStreaming:
false, isCompleted: false, isError: false`). -/
def initEntry : DiagnosisEntry :=
  { displayedText := []
    isStreaming := false
    isCompleted := false
    isError := false
    errorMessage := none }

/-- Embedded from DiagnosisModal.tsx: the state written when the fetch is
started (`isStreaming: true, isError: false`). -/
def startStreaming (e : DiagnosisEntry) : DiagnosisEntry :=
  { e with isStreaming := true, isError := false }

/-- Embedded from the DiagnosisModal.tsx catch handler: a failed fetch
sets `isStreaming: false, isError: true` and records the error message;
the displayed text is left as it was. -/
def handleFetchFailure (msg : List Char) (e : DiagnosisEntry) :
    DiagnosisEntry :=
  { e with isStreaming := false, isError := true, errorMessage := some msg }

/-- The streaming loop's state: the captured `currentIndex` plus the
sensor's display entry. -/
structure StreamState where
  currentIndex : Nat
  entry : DiagnosisEntry
deriving DecidableEq, Repr

/-- Embedded from `streamText` (DiagnosisModal.tsx lines 152–181, and the
identical loop in DiagnosisPage): one scheduled tick — while
`currentIndex < fullText.length` it displays
`fullText.slice(0, currentIndex + 1)` and increments the index;
otherwise it ends the stream, marking the entry completed. -/
def streamTick (full : List Char) (st : StreamState) : StreamState :=
  if st.currentIndex < full.length then
    { currentIndex := st.currentIndex + 1
      entry := { st.entry with
                   displayedText := full.take (st.currentIndex + 1) } }
  else
    { st with entry := { st.entry with
                           isStreaming := false, isCompleted := true } }

/-- The streaming loop after `n` ticks, starting from the fresh entry the
moment the fetch resolves. -/
def streamRun (full : List Char) : Nat → StreamState
  | 0 => ⟨0, startStreaming initEntry⟩
  | n + 1 => streamTick full (streamRun full n)

/-- Exact state of the streaming loop after `n` ticks: the index is
`min n (length)`, the displayed text is the corresponding take, and the
entry is completed exactly when the index has passed the end. -/
lemma streamRun_state (full : List Char) (n : Nat) :
    (streamRun full n).currentIndex = min n full.length ∧
    (streamRun full n).entry.displayedText =
      full.take (min n full.length) ∧
    ((streamRun full n).entry.isCompleted = true ↔ full.length < n) := by
  induction n with
  | zero =>
      refine ⟨by simp [streamRun], by simp [streamRun, startStreaming,
        initEntry], by simp [streamRun, startStreaming, initEntry]⟩
  | succ n ih =>
      obtain ⟨hidx, hdisp, hcomp⟩ := ih
      have hrun : streamRun full (n + 1) = streamTick full (streamRun full n) :=
        rfl
      rw [hrun]
      unfold streamTick
      split
      · rename_i hlt
        rw [hidx] at hlt
        have hn : n < full.length := by omega
        refine ⟨?_, ?_, ?_⟩
        · show (streamRun full n).currentIndex + 1 = _
          rw [hidx]
          omega
        · show full.take ((streamRun full n).currentIndex + 1) = _
          rw [hidx]
          congr 1
          omega
        · show (streamRun full n).entry.isCompleted = true ↔ _
          rw [hcomp]
          omega
      · rename_i hge
        rw [hidx] at hge
        have hn : full.length ≤ n := by omega
        refine ⟨?_, ?_, ?_⟩
        · show (streamRun full n).currentIndex = _
          rw [hidx]
          omega
        · show (streamRun full n).entry.displayedText = _
          rw [hdisp]
          congr 1
          omega
        · show (true = true) ↔ _
          simp
          omega

/-- **C9** — While a diagnosis is streaming (DiagnosisModal and
DiagnosisPage share the same `streamText` loop), after any number of
ticks the displayed text is a prefix of the full diagnosis string
returned by the fetch, and whenever the state has transitioned to
`isCompleted` the displayed text equals the full string. -/
theorem diagnosis_stream_prefix_spec (full : List Char) (n : Nat) :
    (∃ rest, (streamRun full n).entry.displayedText ++ rest = full) ∧
    ((streamRun full n).entry.isCompleted = true →
      (streamRun full n).entry.displayedText = full) := by
  obtain ⟨hidx, hdisp, hcomp⟩ := streamRun_state full n
  constructor
  · exact ⟨full.drop (min n full.length), by
      rw [hdisp]; exact List.take_append_drop _ _⟩
  · intro hc
    have hlen : full.length < n := hcomp.mp hc
    rw [hdisp]
    have : min n full.length = full.length := by omega
    rw [this, List.take_length]

/-- Witness for C9 at a concrete input: after 3 ticks on the two-char
string `ab` the stream is completed and displays the whole string. -/
theorem diagnosis_stream_prefix_spec_witness :
    (streamRun ['a', 'b'] 3).entry.isCompleted = true ∧
    (streamRun ['a', 'b'] 3).entry.displayedText = ['a', 'b'] :=
  ⟨by decide, (diagnosis_stream_prefix_spec ['a', 'b'] 3).2 (by decide)⟩

/-- Aggregate component state of `DiagnosisModal` during one lifetime:
the per-sensor-id `diagnosisStates` map, plus an instrumentation counter
of `fetchDiagnosisFromLLM` calls issued per sensor id. -/
structure ModalState where
  entries : String → Option DiagnosisEntry
  fetches : String → Nat

/-- The state at mount: no entry, no fetch issued. -/
def emptyModalState : ModalState := ⟨fun _ => none, fun _ => 0⟩

/-- An entry for which the code's effect guard is closed: streaming,
completed, or errored. -/
def markedEntry (e : DiagnosisEntry) : Bool :=
  e.isStreaming || e.isCompleted || e.isError

/-- Embedded from the DiagnosisModal.tsx `useEffect` (lines 115–196): one
run of the effect while the modal is open for a sensor.  It initializes a
missing entry, and starts a fetch — marking the entry streaming and
counting the call — only when the entry is neither completed, nor
streaming, nor errored (`effectGuard`); `effectRun` below applies it. -/
def effectGuard (cur : Option DiagnosisEntry) : Bool :=
  match cur with
  | none => true
  | some e => !e.isCompleted && !e.isStreaming && !e.isError

/-- Embedded from the DiagnosisModal.tsx `useEffect` (lines 115–196): one
run of the effect while the modal is open for a sensor.  It initializes a
missing entry, and starts a fetch — marking the entry streaming and
counting the call — only when the guard is open; otherwise it leaves the
state untouched. -/
def effectRun (sid : String) (st : ModalState) : ModalState :=
  if effectGuard (st.entries sid) then
    { entries := fun k =>
        if k = sid then
          some (startStreaming ((st.entries sid).getD initEntry))
        else st.entries k
      fetches := fun k =>
        if k = sid then st.fetches sid + 1 else st.fetches k }
  else st

/-- Embedded from the `.then` handler: a resolved fetch streams the text
to completion, leaving the entry completed with the full text displayed.
Applies only to the sensor's in-flight (streaming) fetch. -/
def resolveSuccess (sid : String) (full : List Char) (st : ModalState) :
    ModalState :=
  match st.entries sid with
  | none => st
  | some e =>
      if e.isStreaming then
        { st with entries := fun k =>
            if k = sid then
              some { e with displayedText := full
                            isStreaming := false
                            isCompleted := true }
            else st.entries k }
      else st

/-- Embedded from the `.catch` handler: a rejected fetch records the
error.  Applies only to the sensor's in-flight (streaming) fetch. -/
def resolveFailure (sid : String) (msg : List Char) (st : ModalState) :
    ModalState :=
  match st.entries sid with
  | none => st
  | some e =>
      if e.isStreaming then
        { st with entries := fun k =>
            if k = sid then some (handleFetchFailure msg e)
            else st.entries k }
      else st

/-- The events a modal lifetime consists of: effect runs (modal opened or
re-rendered for a sensor) and fetch resolutions. -/
inductive ModalEvent where
  | effect (sid : String)
  | succeed (sid : String) (full : List Char)
  | fail (sid : String) (msg : List Char)

/-- One event's effect on the component state. -/
def modalStep (st : ModalState) : ModalEvent → ModalState
  | .effect sid => effectRun sid st
  | .succeed sid full => resolveSuccess sid full st
  | .fail sid msg => resolveFailure sid msg st

/-- The component state after a sequence of events within one lifetime. -/
def runModal (events : List ModalEvent) : ModalState :=
  events.foldl modalStep emptyModalState

/-- Invariant of one modal lifetime: a sensor id either has no entry and
no fetch yet, or a marked (streaming/completed/errored) entry and exactly
one fetch issued. -/
def ModalInv (st : ModalState) : Prop :=
  ∀ sid, (st.entries sid = none ∧ st.fetches sid = 0) ∨
    (∃ e, st.entries sid = some e ∧ markedEntry e = true ∧
      st.fetches sid = 1)

/-- An effect run for one sensor leaves every other sensor's entry and
fetch count unchanged. -/
lemma effectRun_other (sid k : String) (st : ModalState) (hk : k ≠ sid) :
    (effectRun sid st).entries k = st.entries k ∧
    (effectRun sid st).fetches k = st.fetches k := by
  unfold effectRun
  split
  · simp [hk]
  · exact ⟨rfl, rfl⟩

/-- An effect run on a sensor with no entry starts its first fetch. -/
lemma effectRun_self_none (sid : String) (st : ModalState)
    (hn : st.entries sid = none) :
    (effectRun sid st).entries sid = some (startStreaming initEntry) ∧
    (effectRun sid st).fetches sid = st.fetches sid + 1 := by
  simp [effectRun, effectGuard, hn]

/-- An effect run on a sensor whose entry is streaming, completed or
errored does nothing at all: the guard is closed and no fetch is
issued. -/
lemma effectRun_self_marked (sid : String) (st : ModalState)
    (e : DiagnosisEntry) (he : st.entries sid = some e)
    (hm : markedEntry e = true) : effectRun sid st = st := by
  have hg : effectGuard (st.entries sid) = false := by
    rw [he]
    simp only [markedEntry, Bool.or_eq_true] at hm
    rcases hm with (hm | hm) | hm <;> simp [effectGuard, hm]
  simp [effectRun, hg]

/-- Fetch resolutions never change the fetch counters. -/
lemma resolveSuccess_fetches (sid : String) (full : List Char)
    (st : ModalState) (k : String) :
    (resolveSuccess sid full st).fetches k = st.fetches k := by
  unfold resolveSuccess
  rcases h : st.entries sid with _ | e
  · rfl
  · dsimp only
    split <;> rfl

/-- Fetch resolutions never change the fetch counters. -/
lemma resolveFailure_fetches (sid : String) (msg : List Char)
    (st : ModalState) (k : String) :
    (resolveFailure sid msg st).fetches k = st.fetches k := by
  unfold resolveFailure
  rcases h : st.entries sid with _ | e
  · rfl
  · dsimp only
    split <;> rfl

/-- A resolution for a sensor with no entry does nothing. -/
lemma resolveSuccess_none (sid : String) (full : List Char) (st : ModalState)
    (hn : st.entries sid = none) : resolveSuccess sid full st = st := by
  unfold resolveSuccess
  rw [hn]

/-- A resolution for a sensor with no entry does nothing. -/
lemma resolveFailure_none (sid : String) (msg : List Char) (st : ModalState)
    (hn : st.entries sid = none) : resolveFailure sid msg st = st := by
  unfold resolveFailure
  rw [hn]

/-- A resolution for a sensor whose entry is not streaming does
nothing. -/
lemma resolveSuccess_not_streaming (sid : String) (full : List Char)
    (st : ModalState) (e : DiagnosisEntry) (he : st.entries sid = some e)
    (hs : e.isStreaming = false) : resolveSuccess sid full st = st := by
  unfold resolveSuccess
  rw [he]
  simp [hs]

/-- A resolution for a sensor whose entry is not streaming does
nothing. -/
lemma resolveFailure_not_streaming (sid : String) (msg : List Char)
    (st : ModalState) (e : DiagnosisEntry) (he : st.entries sid = some e)
    (hs : e.isStreaming = false) : resolveFailure sid msg st = st := by
  unfold resolveFailure
  rw [he]
  simp [hs]

/-- A successful resolution of an in-flight fetch completes the sensor's
entry and touches no other entry. -/
lemma resolveSuccess_streaming (sid : String) (full : List Char)
    (st : ModalState) (e : DiagnosisEntry) (he : st.entries sid = some e)
    (hs : e.isStreaming = true) :
    (resolveSuccess sid full st).entries sid =
      some { e with displayedText := full, isStreaming := false,
                    isCompleted := true } ∧
    ∀ k, k ≠ sid → (resolveSuccess sid full st).entries k = st.entries k := by
  constructor
  · unfold resolveSuccess
    rw [he]
    simp [hs]
  · intro k hk
    unfold resolveSuccess
    rw [he]
    simp [hs, hk]

/-- A failed resolution of an in-flight fetch records the error on the
sensor's entry and touches no other entry. -/
lemma resolveFailure_streaming (sid : String) (msg : List Char)
    (st : ModalState) (e : DiagnosisEntry) (he : st.entries sid = some e)
    (hs : e.isStreaming = true) :
    (resolveFailure sid msg st).entries sid =
      some (handleFetchFailure msg e) ∧
    ∀ k, k ≠ sid → (resolveFailure sid msg st).entries k = st.entries k := by
  constructor
  · unfold resolveFailure
    rw [he]
    simp [hs]
  · intro k hk
    unfold resolveFailure
    rw [he]
    simp [hs, hk]

/-- Every event preserves the modal invariant. -/
lemma modalStep_inv {st : ModalState} (h : ModalInv st) (ev : ModalEvent) :
    ModalInv (modalStep st ev) := by
  cases ev with
  | effect sid =>
      intro k
      by_cases hk : k = sid
      · subst hk
        rcases h k with ⟨hn, hf⟩ | ⟨e, he, hm, hf⟩
        · right
          obtain ⟨h1, h2⟩ := effectRun_self_none k st hn
          refine ⟨startStreaming initEntry, h1,
            by simp [markedEntry, startStreaming], ?_⟩
          show (effectRun k st).fetches k = 1
          rw [h2, hf]
        · right
          have heq : modalStep st (.effect k) = st :=
            effectRun_self_marked k st e he hm
          rw [heq]
          exact ⟨e, he, hm, hf⟩
      · obtain ⟨h1, h2⟩ := effectRun_other sid k st hk
        rcases h k with ⟨hn, hf⟩ | ⟨e, he, hm, hf⟩
        · exact Or.inl ⟨h1.trans hn, h2.trans hf⟩
        · exact Or.inr ⟨e, h1.trans he, hm, h2.trans hf⟩
  | succeed sid full =>
      intro k
      have hfet : (resolveSuccess sid full st).fetches k = st.fetches k :=
        resolveSuccess_fetches sid full st k
      rcases hcase : st.entries sid with _ | e2
      · have heq : modalStep st (.succeed sid full) = st :=
          resolveSuccess_none sid full st hcase
        rw [heq]
        exact h k
      · by_cases hs : e2.isStreaming = true
        · by_cases hk : k = sid
          · subst hk
            obtain ⟨h1, _⟩ := resolveSuccess_streaming k full st e2 hcase hs
            right
            refine ⟨_, h1, by simp [markedEntry], ?_⟩
            rcases h k with ⟨hn, hf⟩ | ⟨e, he, hm, hf⟩
            · rw [hn] at hcase
              exact absurd hcase (by simp)
            · exact hfet.trans hf
          · obtain ⟨_, h2⟩ := resolveSuccess_streaming sid full st e2 hcase hs
            rcases h k with ⟨hn, hf⟩ | ⟨e, he, hm, hf⟩
            · exact Or.inl ⟨(h2 k hk).trans hn, hfet.trans hf⟩
            · exact Or.inr ⟨e, (h2 k hk).trans he, hm, hfet.trans hf⟩
        · have heq : modalStep st (.succeed sid full) = st :=
            resolveSuccess_not_streaming sid full st e2 hcase
              (by simpa using hs)
          rw [heq]
          exact h k
  | fail sid msg =>
      intro k
      have hfet : (resolveFailure sid msg st).fetches k = st.fetches k :=
        resolveFailure_fetches sid msg st k
      rcases hcase : st.entries sid with _ | e2
      · have heq : modalStep st (.fail sid msg) = st :=
          resolveFailure_none sid msg st hcase
        rw [heq]
        exact h k
      · by_cases hs : e2.isStreaming = true
        · by_cases hk : k = sid
          · subst hk
            obtain ⟨h1, _⟩ := resolveFailure_streaming k msg st e2 hcase hs
            right
            refine ⟨_, h1, by simp [markedEntry, handleFetchFailure], ?_⟩
            rcases h k with ⟨hn, hf⟩ | ⟨e, he, hm, hf⟩
            · rw [hn] at hcase
              exact absurd hcase (by simp)
            · exact hfet.trans hf
          · obtain ⟨_, h2⟩ := resolveFailure_streaming sid msg st e2 hcase hs
            rcases h k with ⟨hn, hf⟩ | ⟨e, he, hm, hf⟩
            · exact Or.inl ⟨(h2 k hk).trans hn, hfet.trans hf⟩
            · exact Or.inr ⟨e, (h2 k hk).trans he, hm, hfet.trans hf⟩
        · have heq : modalStep st (.fail sid msg) = st :=
            resolveFailure_not_streaming sid msg st e2 hcase
              (by simpa using hs)
          rw [heq]
          exact h k

/-- The invariant holds after any event sequence. -/
lemma runModal_inv (events : List ModalEvent) : ModalInv (runModal events) := by
  have hstep : ∀ (st : ModalState), ModalInv st →
      ModalInv (events.foldl modalStep st) := by
    induction events with
    | nil => intro st h; exact h
    | cons ev evs ih =>
        intro st h
        exact ih (modalStep st ev) (modalStep_inv h ev)
  refine hstep emptyModalState ?_
  intro sid
  left
  exact ⟨rfl, rfl⟩

/-- **C10** — DiagnosisModal keeps its diagnosis state in a map keyed by
sensor id; once the entry for a sensor id is marked streaming, completed
or errored, a further effect run (reopening the modal for that sensor)
leaves the component state untouched and issues no fetch, so over any
event sequence within one component lifetime at most one
`fetchDiagnosisFromLLM` call occurs per sensor id. -/
theorem modal_single_fetch_spec (events : List ModalEvent) (sid : String) :
    (runModal events).fetches sid ≤ 1 ∧
    (∀ e, (runModal events).entries sid = some e → markedEntry e = true →
        effectRun sid (runModal events) = runModal events) := by
  constructor
  · rcases runModal_inv events sid with ⟨_, hf⟩ | ⟨e, _, _, hf⟩ <;> omega
  · intro e he hm
    exact effectRun_self_marked sid (runModal events) e he hm

/-- Witness for C10: opening the modal twice for sensor `a` issues one
fetch, and a third effect run is a no-op. -/
theorem modal_single_fetch_spec_witness :
    (runModal [.effect "a", .effect "a"]).fetches "a" ≤ 1 ∧
    effectRun "a" (runModal [.effect "a", .effect "a"]) =
      runModal [.effect "a", .effect "a"] :=
  ⟨(modal_single_fetch_spec [.effect "a", .effect "a"] "a").1,
   (modal_single_fetch_spec [.effect "a", .effect "a"] "a").2
     (startStreaming initEntry) rfl rfl⟩

/-- **C5 counterexample** — the claim says a failed model call must still
produce a best-effort report and never surface a fatal error to the
caller.  In the code (DiagnosisModal.tsx catch handler), the concrete
failure `LLM service temporarily unavailable` on a fresh session leaves
an error state with an empty report text and no completion: the caller
gets the error, not a report. -/
theorem diagnosis_failure_counterexample :
    (handleFetchFailure ("LLM service temporarily unavailable".toList)
        (startStreaming initEntry)).isError = true ∧
    (handleFetchFailure ("LLM service temporarily unavailable".toList)
        (startStreaming initEntry)).displayedText = [] ∧
    (handleFetchFailure ("LLM service temporarily unavailable".toList)
        (startStreaming initEntry)).isCompleted = false ∧
    (handleFetchFailure ("LLM service temporarily unavailable".toList)
        (startStreaming initEntry)).errorMessage =
      some ("LLM service temporarily unavailable".toList) :=
  ⟨rfl, rfl, rfl, rfl⟩

/-- **C5 (amended)** — In the code, every resolved model response is
streamed to a complete report, whatever its content (nothing is treated
as malformed); but a failed or timed-out model call is surfaced to the
caller as an error state carrying the error message, with the report text
left unchanged (empty for a fresh session) and no retry: an errored entry
blocks any further fetch for that sensor. -/
theorem diagnosis_model_failure_spec :
    (∀ (msg : List Char) (e : DiagnosisEntry),
        (handleFetchFailure msg e).isError = true ∧
        (handleFetchFailure msg e).isStreaming = false ∧
        (handleFetchFailure msg e).errorMessage = some msg ∧
        (handleFetchFailure msg e).displayedText = e.displayedText ∧
        (handleFetchFailure msg e).isCompleted = e.isCompleted) ∧
    (∀ (st : ModalState) (sid : String) (e : DiagnosisEntry),
        st.entries sid = some e → e.isError = true →
        effectRun sid st = st) ∧
    (∀ full : List Char,
        (streamRun full (full.length + 1)).entry.isCompleted = true ∧
        (streamRun full (full.length + 1)).entry.displayedText = full) := by
  refine ⟨fun msg e => ⟨rfl, rfl, rfl, rfl, rfl⟩, ?_, ?_⟩
  · intro st sid e he herr
    exact effectRun_self_marked sid st e he (by simp [markedEntry, herr])
  · intro full
    obtain ⟨hidx, hdisp, hcomp⟩ := streamRun_state full (full.length + 1)
    refine ⟨hcomp.mpr (by omega), ?_⟩
    rw [hdisp]
    have hmin : min (full.length + 1) full.length = full.length := by omega
    rw [hmin, List.take_length]
